import Mathlib

/-!
Shallow embedding of the batch job-matching engine of
`backend/app/services.py` (functions `_sanitize_raw`, `_call_llm`,
`match_jobs_batch_service`, `_score_job_heuristic`, `_score_job_llm`).

Python strings are modelled by Lean `String`; the Python string
operations used by the code (`.lower()`, substring membership via `in`,
slicing `[:n]`, `len`, f-string concatenation) are given explicit
executable models below.  JSON values produced by `json.loads` are
modelled by the inductive `Json` (numbers as `Int`); Python dicts with
string keys are association lists with first-key lookup and
replace-or-append update, matching dict semantics on the unique-key
dicts `json.loads` produces.  Exceptions are modelled by the `PyError`
sum; the completion provider (an external collaborator) is modelled by
`ProviderOutcome`: either a transport-level error or raw text together
with the result of `json.loads` on it (the parse result is carried
explicitly since `json.loads` is the Python standard library, not code
of this repository).
-/

namespace Copilot

/-- Python `str.lower()` restricted to basic latin, as Lean's `Char.toLower`. -/
def lowerStr (s : String) : String := ⟨s.data.map Char.toLower⟩

/-- `a` begins with `needle` (character lists). -/
def headMatch : List Char → List Char → Bool
  | [], _ => true
  | _ :: _, [] => false
  | a :: as, b :: bs => a == b && headMatch as bs

/-- `needle` occurs as a contiguous substring of `hay` (character lists);
models Python `needle in hay` on strings. -/
def subIn (needle : List Char) : List Char → Bool
  | [] => headMatch needle []
  | h :: t => headMatch needle (h :: t) || subIn needle t

/-- Python `needle in hay` for strings. -/
def strContains (hay needle : String) : Bool := subIn needle.data hay.data

/-- Python `s[:n]` (character slicing). -/
def strTake (s : String) (n : Nat) : String := ⟨s.data.take n⟩

/-- Python `len(s)`. -/
def strLen (s : String) : Nat := s.data.length

/-- Python string concatenation (as used in the f-strings of the source). -/
def scat (a b : String) : String := ⟨a.data ++ b.data⟩

/-- JSON values as returned by `json.loads` (numbers modelled as `Int`). -/
inductive Json where
  | null : Json
  | bool (b : Bool) : Json
  | num (n : Int) : Json
  | str (s : String) : Json
  | arr (elems : List Json) : Json
  | obj (fields : List (String × Json)) : Json

/-- A Python dict with string keys (as produced by `json.loads`). -/
def Dict : Type := List (String × Json)

/-- Python `d.get(k)` / `d[k]` lookup: first binding of the key. -/
def dictGet (d : Dict) (k : String) : Option Json :=
  (List.find? (fun p => p.1 == k) d).map Prod.snd

/-- Python `d[k] = v`: replace the binding if the key is present, else append. -/
def dictSet (d : Dict) (k : String) (v : Json) : Dict :=
  match d with
  | [] => [(k, v)]
  | p :: ps => if p.1 == k then (k, v) :: ps else p :: dictSet ps k v

/-- Python `k in d` for dicts. -/
def dictHasKey (d : Dict) (k : String) : Bool :=
  List.any d (fun p => p.1 == k)

/-- `type(v).__name__` for the Python value a `Json` models. -/
def typeName : Json → String
  | .null => "NoneType"
  | .bool _ => "bool"
  | .num _ => "int"
  | .str _ => "str"
  | .arr _ => "list"
  | .obj _ => "dict"

/-- Exceptions raised by the code (`ValueError`, `TypeError`) or by the
provider client (transport / auth / rate-limit errors). -/
inductive PyError where
  | valueError (msg : String)
  | typeError (msg : String)
  | transportError (msg : String)

/-- Python `str(e)` on an exception: its message. -/
def pyErrMsg : PyError → String
  | .valueError m => m
  | .typeError m => m
  | .transportError m => m

/-- Outcome of one round-trip to the completion provider: either the
provider client raised a transport-level error, or it returned raw text,
carried together with the result of `json.loads` on that text
(`none` when the text is not valid JSON). -/
inductive ProviderOutcome where
  | transportFail (msg : String)
  | reply (raw : String) (parsed : Option Json)

/-- `_sanitize_raw(raw, max_length=100)` from services.py. -/
def sanitizeRaw (raw : String) : String :=
  if raw = "" then "Empty response"
  else if strLen raw ≤ 100 then raw
  else scat (strTake raw 100) "... [truncated/redacted]"

/-- Ascending insertion into a sorted list of strings (code-point order). -/
def insortStr (x : String) : List String → List String
  | [] => [x]
  | y :: ys => if y < x then y :: insortStr x ys else x :: y :: ys

/-- Python `sorted` on a list of strings. -/
def sortStrs (l : List String) : List String := l.foldr insortStr []

/-- Python `", ".join(l)`. -/
def joinComma : List String → String
  | [] => ""
  | [x] => x
  | x :: y :: ys => scat x (scat ", " (joinComma (y :: ys)))

/-- `expected_keys - set(data.keys())` from `_call_llm` (as a list of keys). -/
def missingOf (expected : List String) (d : Dict) : List String :=
  expected.filter (fun k => !(dictHasKey d k))

/-- The `ValueError` message of `_call_llm` when `json.loads` fails. -/
def parseErrMsg (raw : String) : String :=
  scat "AI returned an invalid JSON response. Raw (truncated): " (sanitizeRaw raw)

/-- The `ValueError` message of `_call_llm` when the JSON is not an object. -/
def notDictMsg (j : Json) : String :=
  scat "Expected JSON object (dict), got " (scat (typeName j) ". Raw (redacted): <redacted>")

/-- The `ValueError` message of `_call_llm` when required keys are missing. -/
def schemaErrMsg (missing expected : List String) (raw : String) : String :=
  scat "LLM response is missing required keys: "
    (scat (joinComma (sortStrs missing))
      (scat ". Expected keys: "
        (scat (joinComma (sortStrs expected))
          (scat ". Raw (truncated): " (sanitizeRaw raw)))))

/-- `_call_llm` from services.py, after the provider round-trip: parse the
raw text as JSON, require a JSON object, and when `expected_keys` is a
non-empty set require every expected key to be present. -/
def callLLM (expectedKeys : Option (List String)) (resp : ProviderOutcome) :
    Except PyError Dict :=
  match resp with
  | .transportFail msg => .error (.transportError msg)
  | .reply raw none => .error (.valueError (parseErrMsg raw))
  | .reply raw (some j) =>
    match j with
    | .obj kvs =>
      match expectedKeys with
      | none => .ok kvs
      | some expected =>
        if expected.isEmpty then .ok kvs
        else
          let missing := missingOf expected kvs
          if missing.isEmpty then .ok kvs
          else .error (.valueError (schemaErrMsg missing expected raw))
    | other => .error (.valueError (notDictMsg other))

/-- A job dict as consumed by the scorers; fields model
`job.get("job_id")`, `job.get("job_title", "")`, `job.get("company_name", "")`
and `job.get("description", "")` on a well-typed job dict (`job_id` is
`none` when the key is absent). -/
structure Job where
  job_id : Option String
  job_title : String
  company_name : String
  description : String

/-- A user-profile dict; fields model `user_profile.get("skills", [])`,
`user_profile.get("target_role", "")` and `user_profile.get("experience", "")`. -/
structure UserProfile where
  skills : List String
  target_role : String
  experience : String

/-- Python `None` / a string, as a dict value. -/
def optStrJson : Option String → Json
  | none => Json.null
  | some s => Json.str s

/-- The fixed seniority-keyword vocabulary `years_keywords` of
`_score_job_heuristic`. -/
def yearsKeywords : List String := ["senior", "lead", "staff", "principal", "junior", "entry"]

/-- The body of the seniority loop of `_score_job_heuristic`: starting from
accumulator `acc`, add 10 per keyword found in both the (lowered) job title
and the (lowered) experience text, 5 when in exactly one. -/
def expScoreLoop (titleLower expLower : String) : List String → Int → Int
  | [], acc => acc
  | kw :: kws, acc =>
    let kwLower := lowerStr kw
    let inTitle := strContains titleLower kwLower
    let inExp := strContains expLower kwLower
    expScoreLoop titleLower expLower kws
      (acc + (if inTitle && inExp then 10 else if inTitle || inExp then 5 else 0))

/-- The local `matched_skills` of `_score_job_heuristic`: lowered profile
skills whose substring appears in the lowered description or title
(the loop appends exactly the skills passing this test, in order). -/
def heurMatched (job : Job) (user_profile : UserProfile) : List String :=
  (user_profile.skills.map lowerStr).filter
    (fun skill => strContains (lowerStr job.description) skill ||
                  strContains (lowerStr job.job_title) skill)

/-- The local `skill_score` of `_score_job_heuristic`: 10 points per
matched skill, then `min(skill_score, 50)`. -/
def heurSkillScore (job : Job) (user_profile : UserProfile) : Int :=
  min (10 * (heurMatched job user_profile).length) 50

/-- The local `role_score` of `_score_job_heuristic` (the `if target_role`
guards are Python truthiness: the target role must be non-empty). -/
def heurRoleScore (job : Job) (user_profile : UserProfile) : Int :=
  if lowerStr user_profile.target_role ≠ "" &&
      strContains (lowerStr job.job_title) (lowerStr user_profile.target_role) then 30
  else if lowerStr user_profile.target_role ≠ "" &&
      strContains (strTake (lowerStr job.description) 500)
        (lowerStr user_profile.target_role) then 15
  else 0

/-- The local `exp_score` of `_score_job_heuristic`: the seniority loop over
`years_keywords` (note the source lowercases the already-lowered
`job_title` and `experience` once more), then `min(exp_score, 20)`. -/
def heurExpScore (job : Job) (user_profile : UserProfile) : Int :=
  min (expScoreLoop (lowerStr (lowerStr job.job_title))
        (lowerStr (lowerStr user_profile.experience)) yearsKeywords 0) 20

/-- The local `total_score` of `_score_job_heuristic`. -/
def heurTotal (job : Job) (user_profile : UserProfile) : Int :=
  heurSkillScore job user_profile + heurRoleScore job user_profile +
    heurExpScore job user_profile

/-- The local `missing_skills` of `_score_job_heuristic`: lowered profile
skills appearing in neither the lowered description nor the lowered title. -/
def heurMissing (job : Job) (user_profile : UserProfile) : List String :=
  (user_profile.skills.map lowerStr).filter
    (fun s => !(strContains (lowerStr job.description) s) &&
              !(strContains (lowerStr job.job_title) s))

/-- The local `ranking` of `_score_job_heuristic`. -/
def heurRanking (job : Job) (user_profile : UserProfile) : String :=
  if heurTotal job user_profile ≥ 70 then "high"
  else if heurTotal job user_profile ≥ 50 then "medium"
  else "low"

/-- `_score_job_heuristic(job, user_profile)` from services.py. -/
def scoreJobHeuristic (job : Job) (user_profile : UserProfile) : Dict :=
  [("job_id", Json.str (job.job_id.getD "unknown")),
   ("match_score", Json.num (heurTotal job user_profile)),
   ("ranking_level", Json.str (heurRanking job user_profile)),
   ("matched_skills", Json.arr (((heurMatched job user_profile).take 5).map Json.str)),
   ("missing_skills", Json.arr (((heurMissing job user_profile).take 5).map Json.str)),
   ("summary", Json.str (scat (toString (heurTotal job user_profile))
      (scat "% match - " (scat (toString (heurMatched job user_profile).length)
        (scat " skills match, " (scat (heurRanking job user_profile) " fit"))))))]

/-- The `expected_keys` set passed by `_score_job_llm`. -/
def scoringKeys : List String :=
  ["match_percentage", "ranking_level", "matched_skills", "missing_skills", "summary"]

/-- Python `min(100, max(0, v))`: clamps a number, raises `TypeError` on a
value that does not compare with integers. -/
def pyClamp (v : Json) : Except PyError Int :=
  match v with
  | .num n => .ok (min 100 (max 0 n))
  | other => .error (.typeError (scat "unorderable value of type " (typeName other)))

/-- Python `v[:5]`: slices a list or a string, raises `TypeError` otherwise. -/
def pySliceFive (v : Json) : Except PyError Json :=
  match v with
  | .arr xs => .ok (.arr (xs.take 5))
  | .str s => .ok (.str (strTake s 5))
  | other => .error (.typeError (scat "unsubscriptable value of type " (typeName other)))

/-- `_score_job_llm(job, user_profile)` from services.py, as a function of
the provider outcome for this job's single round-trip: call `_call_llm`
with the five expected keys, then stamp `job_id` from the input job, clamp
`match_percentage` into `match_score`, and truncate both skill lists to 5. -/
def scoreJobLLM (job : Job) (resp : ProviderOutcome) : Except PyError Dict :=
  match callLLM (some scoringKeys) resp with
  | .error e => .error e
  | .ok data =>
    match pyClamp ((dictGet (dictSet data "job_id" (optStrJson job.job_id))
        "match_percentage").getD (Json.num 50)) with
    | .error e => .error e
    | .ok ms =>
      match pySliceFive ((dictGet (dictSet (dictSet data "job_id"
          (optStrJson job.job_id)) "match_score" (Json.num ms))
          "matched_skills").getD (Json.arr [])) with
      | .error e => .error e
      | .ok mk =>
        match pySliceFive ((dictGet (dictSet (dictSet (dictSet data "job_id"
            (optStrJson job.job_id)) "match_score" (Json.num ms))
            "matched_skills" mk) "missing_skills").getD (Json.arr [])) with
        | .error e => .error e
        | .ok mn =>
          .ok (dictSet (dictSet (dictSet (dictSet data "job_id"
                (optStrJson job.job_id)) "match_score" (Json.num ms))
                "matched_skills" mk) "missing_skills" mn)

/-- The degraded placeholder built by `match_jobs_batch_service` for a job
whose LLM scoring task raised. -/
def degradedPlaceholder (job : Job) (e : PyError) : Dict :=
  [("job_id", optStrJson job.job_id),
   ("match_score", Json.num 0),
   ("ranking_level", Json.str "none"),
   ("matched_skills", Json.arr []),
   ("missing_skills", Json.arr []),
   ("summary", Json.str "Error during AI scoring"),
   ("error", Json.str (pyErrMsg e))]

/-- One entry of the LLM-mode result loop of `match_jobs_batch_service`:
the task's `ScoreResult` when it succeeded, the degraded placeholder when
it raised. -/
def llmEntry (job : Job) (resp : ProviderOutcome) : Dict :=
  match scoreJobLLM job resp with
  | .ok d => d
  | .error e => degradedPlaceholder job e

/-- `match_jobs_batch_service(jobs, user_profile, quick_mode)` from
services.py.  In LLM mode each job's task performs one provider
round-trip; `responses i` is the provider outcome of the task for the
`i`-th job (`asyncio.gather` returns task results in submission order,
which is input order). -/
def matchJobsBatchService (jobs : List Job) (user_profile : UserProfile)
    (quick_mode : Bool) (responses : Nat → ProviderOutcome) : List Dict :=
  if jobs.isEmpty then []
  else if quick_mode then
    jobs.map (fun job => scoreJobHeuristic job user_profile)
  else
    jobs.enum.map (fun p => llmEntry p.2 (responses p.1))

/-! Concrete inputs used by witnesses and counterexamples. -/

/-- The job of the spec's worked heuristic example (§8). -/
def exJob : Job :=
  { job_id := some "job-1", job_title := "Senior Backend Engineer",
    company_name := "TechCorp",
    description := "We need you! Python and FastAPI required." }

/-- The profile of the spec's worked heuristic example (§8). -/
def exProfile : UserProfile :=
  { skills := ["Python", "FastAPI"], target_role := "Backend Engineer",
    experience := "senior backend" }

/-- A provider reply that passes parsing and schema validation and reports
an out-of-range `match_percentage`, overlong skill lists, and a `job_id`
of its own. -/
def exGoodReply : ProviderOutcome :=
  .reply "{}" (some (.obj
    [("match_percentage", Json.num 150),
     ("ranking_level", Json.str "high"),
     ("matched_skills", Json.arr
        [Json.str "a", Json.str "b", Json.str "c", Json.str "d",
         Json.str "e", Json.str "f", Json.str "g"]),
     ("missing_skills", Json.arr []),
     ("summary", Json.str "ok"),
     ("job_id", Json.str "attacker-chosen")]))

/-- A second valid provider reply, with different content. -/
def exGoodReplyB : ProviderOutcome :=
  .reply "{}" (some (.obj
    [("match_percentage", Json.num 10),
     ("ranking_level", Json.str "low"),
     ("matched_skills", Json.arr []),
     ("missing_skills", Json.arr [Json.str "x"]),
     ("summary", Json.str "meh"),
     ("job_id", Json.str "other")]))

/-- A valid provider reply that smuggles in an `error` field of its own. -/
def exErrorKeyReply : ProviderOutcome :=
  .reply "{}" (some (.obj
    [("match_percentage", Json.num 80),
     ("ranking_level", Json.str "high"),
     ("matched_skills", Json.arr [Json.str "python"]),
     ("missing_skills", Json.arr []),
     ("summary", Json.str "fine"),
     ("error", Json.str "sneaky")]))

/-- A provider reply whose text is not valid JSON. -/
def exBadJsonReply : ProviderOutcome := .reply "oops not json" none

/-- A provider reply that is valid JSON but misses `ranking_level`. -/
def exMissingKeyReply : ProviderOutcome :=
  .reply "{}" (some (.obj
    [("match_percentage", Json.num 70),
     ("matched_skills", Json.arr []),
     ("missing_skills", Json.arr []),
     ("summary", Json.str "partial")]))

/-! Helper lemmas about dict lookup and update. -/

theorem dictGet_dictSet_self (d : Dict) (k : String) (v : Json) :
    dictGet (dictSet d k v) k = some v := by
  induction d with
  | nil => simp [dictGet, dictSet, List.find?]
  | cons p ps ih =>
    by_cases h : p.1 = k
    · simp [dictGet, dictSet, h, List.find?]
    · have hb : (p.1 == k) = false := beq_false_of_ne h
      simp only [dictSet, hb, if_false]
      simpa [dictGet, List.find?, hb] using ih

theorem dictGet_dictSet_ne (d : Dict) (k k' : String) (v : Json) (h : k' ≠ k) :
    dictGet (dictSet d k v) k' = dictGet d k' := by
  induction d with
  | nil =>
    have hb : (k == k') = false := beq_false_of_ne (fun he => h he.symm)
    simp [dictGet, dictSet, List.find?, hb]
  | cons p ps ih =>
    by_cases hp : p.1 = k
    · have hb : (p.1 == k) = true := beq_iff_eq.mpr hp
      have hkk : (k == k') = false := beq_false_of_ne (fun he => h he.symm)
      have hpk : (p.1 == k') = false := by
        apply beq_false_of_ne; intro he; exact h (he.symm.trans hp)
      simp [dictGet, dictSet, hb, hkk, hpk, List.find?]
    · have hb : (p.1 == k) = false := beq_false_of_ne hp
      by_cases hq : p.1 = k'
      · have hq' : (p.1 == k') = true := beq_iff_eq.mpr hq
        simp [dictGet, dictSet, hb, hq', List.find?]
      · have hq' : (p.1 == k') = false := beq_false_of_ne hq
        simp only [dictSet, hb, if_false]
        simpa [dictGet, List.find?, hq'] using ih

theorem dictGet_eq_none_of_not_hasKey (d : Dict) (k : String)
    (h : dictHasKey d k = false) : dictGet d k = none := by
  induction d with
  | nil => rfl
  | cons p ps ih =>
    simp only [dictHasKey, List.any_cons, Bool.or_eq_false_iff] at h
    simp [dictGet, List.find?, h.1]
    simpa [dictGet] using ih (by simpa [dictHasKey] using h.2)

theorem callLLM_ok_inv (expected : List String) (resp : ProviderOutcome) (data : Dict)
    (h : callLLM (some expected) resp = .ok data) :
    ∃ raw, resp = .reply raw (some (.obj data)) ∧
      (expected.isEmpty = true ∨ missingOf expected data = []) := by
  cases resp with
  | transportFail msg => simp [callLLM] at h
  | reply raw parsed =>
    cases parsed with
    | none => simp [callLLM] at h
    | some j =>
      cases j with
      | obj kvs =>
        by_cases he : expected.isEmpty
        · simp only [callLLM, he, if_true, Except.ok.injEq] at h
          exact ⟨raw, by rw [h], Or.inl he⟩
        · by_cases hm : (missingOf expected kvs).isEmpty
          · simp only [callLLM, he, hm, if_true, if_false, Bool.false_eq_true,
              Except.ok.injEq] at h
            subst h
            exact ⟨raw, rfl, Or.inr (List.isEmpty_iff.mp hm)⟩
          · simp [callLLM, he, hm] at h
      | null => simp [callLLM] at h
      | bool b => simp [callLLM] at h
      | num n => simp [callLLM] at h
      | str s => simp [callLLM] at h
      | arr xs => simp [callLLM] at h

theorem scoreJobLLM_ok_inv (job : Job) (resp : ProviderOutcome) (d : Dict)
    (h : scoreJobLLM job resp = .ok d) :
    ∃ data ms mk mn,
      callLLM (some scoringKeys) resp = .ok data ∧
      pyClamp ((dictGet (dictSet data "job_id" (optStrJson job.job_id))
        "match_percentage").getD (Json.num 50)) = .ok ms ∧
      pySliceFive ((dictGet (dictSet (dictSet data "job_id" (optStrJson job.job_id))
        "match_score" (Json.num ms)) "matched_skills").getD (Json.arr [])) = .ok mk ∧
      pySliceFive ((dictGet (dictSet (dictSet (dictSet data "job_id"
        (optStrJson job.job_id)) "match_score" (Json.num ms)) "matched_skills" mk)
        "missing_skills").getD (Json.arr [])) = .ok mn ∧
      d = dictSet (dictSet (dictSet (dictSet data "job_id" (optStrJson job.job_id))
            "match_score" (Json.num ms)) "matched_skills" mk) "missing_skills" mn := by
  unfold scoreJobLLM at h
  split at h
  · exact absurd h (by simp)
  next data hcall =>
    split at h
    · exact absurd h (by simp)
    next ms hclamp =>
      split at h
      · exact absurd h (by simp)
      next mk hmk =>
        split at h
        · exact absurd h (by simp)
        next mn hmn =>
          simp only [Except.ok.injEq] at h
          exact ⟨data, ms, mk, mn, hcall, hclamp, hmk, hmn, h.symm⟩

theorem pyClamp_ok_bounds (v : Json) (n : Int) (h : pyClamp v = .ok n) :
    0 ≤ n ∧ n ≤ 100 := by
  cases v <;> simp [pyClamp] at h
  omega

theorem pySliceFive_ok_arr (v : Json) (xs : List Json)
    (h : pySliceFive v = .ok (.arr xs)) : xs.length ≤ 5 := by
  cases v <;> simp [pySliceFive] at h
  subst h
  simp [List.length_take]

theorem batch_length (jobs : List Job) (user_profile : UserProfile)
    (quick_mode : Bool) (responses : Nat → ProviderOutcome) :
    (matchJobsBatchService jobs user_profile quick_mode responses).length =
      jobs.length := by
  cases jobs with
  | nil => cases quick_mode <;> rfl
  | cons j js =>
    cases quick_mode <;>
      simp [matchJobsBatchService, List.length_map, List.enum_length]

theorem batch_get_quick (jobs : List Job) (user_profile : UserProfile)
    (responses : Nat → ProviderOutcome) (i : Nat) (job : Job)
    (h : jobs[i]? = some job) :
    (matchJobsBatchService jobs user_profile true responses)[i]? =
      some (scoreJobHeuristic job user_profile) := by
  cases jobs with
  | nil => simp at h
  | cons j js =>
    have he : matchJobsBatchService (j :: js) user_profile true responses
        = (j :: js).map (fun job => scoreJobHeuristic job user_profile) := by
      simp [matchJobsBatchService]
    rw [he, List.getElem?_map, h]
    rfl

theorem batch_get_llm (jobs : List Job) (user_profile : UserProfile)
    (responses : Nat → ProviderOutcome) (i : Nat) (job : Job)
    (h : jobs[i]? = some job) :
    (matchJobsBatchService jobs user_profile false responses)[i]? =
      some (llmEntry job (responses i)) := by
  cases jobs with
  | nil => simp at h
  | cons j js =>
    have he : matchJobsBatchService (j :: js) user_profile false responses
        = (j :: js).enum.map (fun p => llmEntry p.2 (responses p.1)) := by
      simp [matchJobsBatchService]
    rw [he, List.getElem?_map, List.getElem?_enum, h]
    rfl

/-! `Char.toLower` is idempotent, so the source's double lowercasing of
`job_title` and `experience` in the seniority loop is a no-op on top of
the first `.lower()`. -/

theorem toNat_ofNat_valid (n : Nat) (h : n.isValidChar) :
    (Char.ofNat n).toNat = n := by
  rw [Char.ofNat, dif_pos h]
  rfl

theorem char_toLower_idem (c : Char) :
    Char.toLower (Char.toLower c) = Char.toLower c := by
  by_cases h : Char.toNat c ≥ 65 ∧ Char.toNat c ≤ 90
  · have h1 : Char.toLower c = Char.ofNat (Char.toNat c + 32) := by
      unfold Char.toLower
      rw [if_pos h]
    have hv : (Char.toNat c + 32).isValidChar := Or.inl (by omega)
    have h2 : (Char.toLower c).toNat = Char.toNat c + 32 := by
      rw [h1, toNat_ofNat_valid _ hv]
    have h3 : ¬(Char.toNat (Char.toLower c) ≥ 65 ∧ Char.toNat (Char.toLower c) ≤ 90) := by
      omega
    conv_lhs => rw [Char.toLower]
    rw [if_neg h3]
  · have h1 : Char.toLower c = c := by
      unfold Char.toLower
      rw [if_neg h]
    rw [h1, h1]

theorem lowerStr_idem (s : String) : lowerStr (lowerStr s) = lowerStr s := by
  show String.mk ((s.data.map Char.toLower).map Char.toLower)
      = String.mk (s.data.map Char.toLower)
  rw [List.map_map,
    show Char.toLower ∘ Char.toLower = Char.toLower from funext char_toLower_idem]

/-- The seniority loop, as the capped sum the spec describes (before the
cap): starting accumulator plus the sum of the per-keyword awards. -/
theorem expScoreLoop_eq_sum (t e : String) (kws : List String) (acc : Int) :
    expScoreLoop t e kws acc = acc +
      (kws.map (fun kw =>
        if strContains t (lowerStr kw) && strContains e (lowerStr kw) then (10 : Int)
        else if strContains t (lowerStr kw) || strContains e (lowerStr kw) then 5
        else 0)).sum := by
  induction kws generalizing acc with
  | nil => simp [expScoreLoop]
  | cons kw kws ih =>
    simp only [expScoreLoop, List.map_cons, List.sum_cons, ih]
    ring

theorem expScoreLoop_nonneg (t e : String) (kws : List String) :
    0 ≤ expScoreLoop t e kws 0 := by
  rw [expScoreLoop_eq_sum]
  have : ∀ x ∈ (kws.map (fun kw =>
      if strContains t (lowerStr kw) && strContains e (lowerStr kw) then (10 : Int)
      else if strContains t (lowerStr kw) || strContains e (lowerStr kw) then 5
      else 0)), 0 ≤ x := by
    intro x hx
    obtain ⟨kw, _, rfl⟩ := List.mem_map.mp hx
    split
    · omega
    · split <;> omega
  have hs := List.sum_nonneg this
  omega

/-! Field-access lemmas for the heuristic result and the placeholder. -/

theorem heur_get_job_id (job : Job) (user_profile : UserProfile) :
    dictGet (scoreJobHeuristic job user_profile) "job_id"
      = some (Json.str (job.job_id.getD "unknown")) := rfl

theorem heur_get_match_score (job : Job) (user_profile : UserProfile) :
    dictGet (scoreJobHeuristic job user_profile) "match_score"
      = some (Json.num (heurTotal job user_profile)) := rfl

theorem heur_get_ranking (job : Job) (user_profile : UserProfile) :
    dictGet (scoreJobHeuristic job user_profile) "ranking_level"
      = some (Json.str (heurRanking job user_profile)) := rfl

theorem heur_get_matched (job : Job) (user_profile : UserProfile) :
    dictGet (scoreJobHeuristic job user_profile) "matched_skills"
      = some (Json.arr (((heurMatched job user_profile).take 5).map Json.str)) := rfl

theorem heur_get_missing (job : Job) (user_profile : UserProfile) :
    dictGet (scoreJobHeuristic job user_profile) "missing_skills"
      = some (Json.arr (((heurMissing job user_profile).take 5).map Json.str)) := rfl

theorem heur_get_error (job : Job) (user_profile : UserProfile) :
    dictGet (scoreJobHeuristic job user_profile) "error" = none := rfl

theorem placeholder_get_job_id (job : Job) (e : PyError) :
    dictGet (degradedPlaceholder job e) "job_id" = some (optStrJson job.job_id) := rfl

theorem placeholder_get_match_score (job : Job) (e : PyError) :
    dictGet (degradedPlaceholder job e) "match_score" = some (Json.num 0) := rfl

theorem placeholder_get_ranking (job : Job) (e : PyError) :
    dictGet (degradedPlaceholder job e) "ranking_level" = some (Json.str "none") := rfl

theorem placeholder_get_matched (job : Job) (e : PyError) :
    dictGet (degradedPlaceholder job e) "matched_skills" = some (Json.arr []) := rfl

theorem placeholder_get_missing (job : Job) (e : PyError) :
    dictGet (degradedPlaceholder job e) "missing_skills" = some (Json.arr []) := rfl

theorem placeholder_get_summary (job : Job) (e : PyError) :
    dictGet (degradedPlaceholder job e) "summary"
      = some (Json.str "Error during AI scoring") := rfl

theorem placeholder_get_error (job : Job) (e : PyError) :
    dictGet (degradedPlaceholder job e) "error" = some (Json.str (pyErrMsg e)) := rfl

/-! Bounds on the heuristic components. -/

theorem heurSkillScore_bounds (job : Job) (user_profile : UserProfile) :
    0 ≤ heurSkillScore job user_profile ∧ heurSkillScore job user_profile ≤ 50 := by
  unfold heurSkillScore
  omega

theorem heurRoleScore_bounds (job : Job) (user_profile : UserProfile) :
    0 ≤ heurRoleScore job user_profile ∧ heurRoleScore job user_profile ≤ 30 := by
  unfold heurRoleScore
  split
  · omega
  · split <;> omega

theorem heurExpScore_bounds (job : Job) (user_profile : UserProfile) :
    0 ≤ heurExpScore job user_profile ∧ heurExpScore job user_profile ≤ 20 := by
  unfold heurExpScore
  have := expScoreLoop_nonneg (lowerStr (lowerStr job.job_title))
    (lowerStr (lowerStr user_profile.experience)) yearsKeywords
  omega

theorem heurTotal_bounds (job : Job) (user_profile : UserProfile) :
    0 ≤ heurTotal job user_profile ∧ heurTotal job user_profile ≤ 100 := by
  have h1 := heurSkillScore_bounds job user_profile
  have h2 := heurRoleScore_bounds job user_profile
  have h3 := heurExpScore_bounds job user_profile
  unfold heurTotal
  omega

/-! Derived facts about successful LLM-mode results. -/

theorem scoreJobLLM_ok_job_id (job : Job) (resp : ProviderOutcome) (d : Dict)
    (h : scoreJobLLM job resp = .ok d) :
    dictGet d "job_id" = some (optStrJson job.job_id) := by
  obtain ⟨data, ms, mk, mn, _, _, _, _, rfl⟩ := scoreJobLLM_ok_inv job resp d h
  rw [dictGet_dictSet_ne _ _ _ _ (by decide),
      dictGet_dictSet_ne _ _ _ _ (by decide),
      dictGet_dictSet_ne _ _ _ _ (by decide),
      dictGet_dictSet_self]

theorem scoreJobLLM_ok_match_score (job : Job) (resp : ProviderOutcome) (d : Dict)
    (h : scoreJobLLM job resp = .ok d) :
    ∃ n, dictGet d "match_score" = some (Json.num n) ∧ 0 ≤ n ∧ n ≤ 100 := by
  obtain ⟨data, ms, mk, mn, _, hclamp, _, _, rfl⟩ := scoreJobLLM_ok_inv job resp d h
  obtain ⟨hb1, hb2⟩ := pyClamp_ok_bounds _ _ hclamp
  refine ⟨ms, ?_, hb1, hb2⟩
  rw [dictGet_dictSet_ne _ _ _ _ (by decide),
      dictGet_dictSet_ne _ _ _ _ (by decide),
      dictGet_dictSet_self]

theorem scoreJobLLM_ok_clamp (job : Job) (resp : ProviderOutcome) (d : Dict) (p : Int)
    (h : scoreJobLLM job resp = .ok d)
    (hp : dictGet d "match_percentage" = some (Json.num p)) :
    dictGet d "match_score" = some (Json.num (min 100 (max 0 p))) := by
  obtain ⟨data, ms, mk, mn, hcall, hclamp, hmk, hmn, rfl⟩ := scoreJobLLM_ok_inv job resp d h
  rw [dictGet_dictSet_ne _ _ _ _ (by decide),
      dictGet_dictSet_ne _ _ _ _ (by decide),
      dictGet_dictSet_ne _ _ _ _ (by decide),
      dictGet_dictSet_ne _ _ _ _ (by decide)] at hp
  rw [dictGet_dictSet_ne _ _ _ _ (by decide), hp] at hclamp
  simp only [Option.getD_some, pyClamp, Except.ok.injEq] at hclamp
  rw [dictGet_dictSet_ne _ _ _ _ (by decide),
      dictGet_dictSet_ne _ _ _ _ (by decide),
      dictGet_dictSet_self, ← hclamp]

theorem scoreJobLLM_ok_mp_provider (job : Job) (resp : ProviderOutcome) (d : Dict)
    (h : scoreJobLLM job resp = .ok d) :
    ∃ raw data, resp = .reply raw (some (.obj data)) ∧
      dictGet d "match_percentage" = dictGet data "match_percentage" := by
  obtain ⟨data, ms, mk, mn, hcall, _, _, _, rfl⟩ := scoreJobLLM_ok_inv job resp d h
  obtain ⟨raw, hresp, _⟩ := callLLM_ok_inv _ _ _ hcall
  refine ⟨raw, data, hresp, ?_⟩
  rw [dictGet_dictSet_ne _ _ _ _ (by decide),
      dictGet_dictSet_ne _ _ _ _ (by decide),
      dictGet_dictSet_ne _ _ _ _ (by decide),
      dictGet_dictSet_ne _ _ _ _ (by decide)]

theorem scoreJobLLM_ok_matched_le5 (job : Job) (resp : ProviderOutcome) (d : Dict)
    (xs : List Json) (h : scoreJobLLM job resp = .ok d)
    (hx : dictGet d "matched_skills" = some (Json.arr xs)) : xs.length ≤ 5 := by
  obtain ⟨data, ms, mk, mn, _, _, hmk, _, rfl⟩ := scoreJobLLM_ok_inv job resp d h
  rw [dictGet_dictSet_ne _ _ _ _ (by decide), dictGet_dictSet_self] at hx
  simp only [Option.some.injEq] at hx
  subst hx
  exact pySliceFive_ok_arr _ _ hmk

theorem scoreJobLLM_ok_missing_le5 (job : Job) (resp : ProviderOutcome) (d : Dict)
    (xs : List Json) (h : scoreJobLLM job resp = .ok d)
    (hx : dictGet d "missing_skills" = some (Json.arr xs)) : xs.length ≤ 5 := by
  obtain ⟨data, ms, mk, mn, _, _, _, hmn, rfl⟩ := scoreJobLLM_ok_inv job resp d h
  rw [dictGet_dictSet_self] at hx
  simp only [Option.some.injEq] at hx
  subst hx
  exact pySliceFive_ok_arr _ _ hmn

theorem scoreJobLLM_ok_no_error (job : Job) (resp : ProviderOutcome) (d : Dict)
    (h : scoreJobLLM job resp = .ok d)
    (hne : ∀ raw data, resp = .reply raw (some (.obj data)) →
      dictHasKey data "error" = false) :
    dictGet d "error" = none := by
  obtain ⟨data, ms, mk, mn, hcall, _, _, _, rfl⟩ := scoreJobLLM_ok_inv job resp d h
  obtain ⟨raw, hresp, _⟩ := callLLM_ok_inv _ _ _ hcall
  rw [dictGet_dictSet_ne _ _ _ _ (by decide),
      dictGet_dictSet_ne _ _ _ _ (by decide),
      dictGet_dictSet_ne _ _ _ _ (by decide),
      dictGet_dictSet_ne _ _ _ _ (by decide)]
  exact dictGet_eq_none_of_not_hasKey data "error" (hne raw data hresp)

theorem scat_ne (a b x y : String) (h : a.data.head? ≠ b.data.head?)
    (ha : a.data ≠ []) (hb : b.data ≠ []) : scat a x ≠ scat b y := by
  intro he
  have hd : a.data ++ x.data = b.data ++ y.data := congrArg String.data he
  apply h
  cases hax : a.data with
  | nil => exact absurd hax ha
  | cons c cs =>
    cases hbx : b.data with
    | nil => exact absurd hbx hb
    | cons c2 cs2 =>
      rw [hax, hbx] at hd
      have : c = c2 := by simpa using congrArg List.head? hd
      simp [this]

/-- C1: in both modes `score_batch` returns exactly `len(jobs)` results in
input order (so `[]` for an empty list), and whenever the `i`-th input job
has an identifier, the `i`-th result carries that identifier, however many
per-job scoring attempts failed. -/
theorem score_batch_length_and_ids (jobs : List Job) (user_profile : UserProfile)
    (quick_mode : Bool) (responses : Nat → ProviderOutcome) :
    (matchJobsBatchService jobs user_profile quick_mode responses).length = jobs.length ∧
    (jobs = [] → matchJobsBatchService jobs user_profile quick_mode responses = []) ∧
    ∀ (i : Nat) (job : Job) (id : String), jobs[i]? = some job → job.job_id = some id →
      ∃ d, (matchJobsBatchService jobs user_profile quick_mode responses)[i]? = some d ∧
        dictGet d "job_id" = some (Json.str id) := by
  refine ⟨batch_length _ _ _ _, ?_, ?_⟩
  · intro h
    subst h
    cases quick_mode <;> rfl
  intro i job id hji hid
  cases quick_mode with
  | true =>
    refine ⟨scoreJobHeuristic job user_profile,
      batch_get_quick jobs user_profile responses i job hji, ?_⟩
    rw [heur_get_job_id, hid]
    rfl
  | false =>
    refine ⟨llmEntry job (responses i),
      batch_get_llm jobs user_profile responses i job hji, ?_⟩
    unfold llmEntry
    split
    next d hsc =>
      rw [scoreJobLLM_ok_job_id job (responses i) d hsc, hid]
      rfl
    next e hsc =>
      rw [placeholder_get_job_id, hid]
      rfl

theorem score_batch_length_and_ids_witness :
    (matchJobsBatchService [exJob] exProfile true (fun _ => exBadJsonReply)).length = 1 ∧
    matchJobsBatchService [] exProfile true (fun _ => exBadJsonReply) = [] ∧
    ∃ d, (matchJobsBatchService [exJob] exProfile true (fun _ => exBadJsonReply))[0]?
        = some d ∧ dictGet d "job_id" = some (Json.str "job-1") := by
  have h := score_batch_length_and_ids [exJob] exProfile true (fun _ => exBadJsonReply)
  have h0 := score_batch_length_and_ids [] exProfile true (fun _ => exBadJsonReply)
  exact ⟨h.1, h0.2.1 rfl, h.2.2 0 exJob "job-1" rfl rfl⟩

/-- C3 counterexample: on the spec's worked example (skills
`["Python","FastAPI"]`, target role `"Backend Engineer"`, experience
`"senior backend"`, job titled `"Senior Backend Engineer"` whose
description contains `"Python and FastAPI required"`), the heuristic
scorer does NOT return a match score of 90 or the tier "high". -/
theorem heuristic_example_not_ninety :
    dictGet (scoreJobHeuristic exJob exProfile) "match_score" ≠ some (Json.num 90) ∧
    dictGet (scoreJobHeuristic exJob exProfile) "ranking_level" ≠ some (Json.str "high") := by
  constructor
  · intro h
    have h60 : dictGet (scoreJobHeuristic exJob exProfile) "match_score"
        = some (Json.num 60) := by rfl
    rw [h60] at h
    simp only [Option.some.injEq, Json.num.injEq] at h
    omega
  · intro h
    have hm : dictGet (scoreJobHeuristic exJob exProfile) "ranking_level"
        = some (Json.str "medium") := by rfl
    rw [hm] at h
    simp only [Option.some.injEq, Json.str.injEq] at h
    exact absurd h (by decide)

/-- C3 amended: on the spec's worked example the heuristic scorer returns
match_score = 60 (20 from the two matched skills at 10 points each, 30
from the role appearing in the title, 10 from the seniority keyword
"senior" appearing in both title and experience) and ranking tier
"medium". -/
theorem heuristic_example_sixty :
    heurSkillScore exJob exProfile = 20 ∧
    heurRoleScore exJob exProfile = 30 ∧
    heurExpScore exJob exProfile = 10 ∧
    dictGet (scoreJobHeuristic exJob exProfile) "match_score" = some (Json.num 60) ∧
    dictGet (scoreJobHeuristic exJob exProfile) "ranking_level" = some (Json.str "medium") :=
  ⟨rfl, rfl, rfl, rfl, rfl⟩

/-- C4: the three failure kinds of the LLM scorer's `_call_llm` path are
pairwise distinguishable: invalid JSON yields a parse `ValueError`, a
JSON object missing expected keys yields a schema `ValueError` whose
message lists the missing keys, a transport-level provider error
propagates as a transport error, and the three error values are pairwise
distinct. -/
theorem llm_failure_kinds_distinct (rawP rawS msgT : String) (kvs : Dict)
    (hmiss : missingOf scoringKeys kvs ≠ []) :
    callLLM (some scoringKeys) (.reply rawP none)
      = .error (.valueError (parseErrMsg rawP)) ∧
    callLLM (some scoringKeys) (.reply rawS (some (.obj kvs)))
      = .error (.valueError (schemaErrMsg (missingOf scoringKeys kvs) scoringKeys rawS)) ∧
    callLLM (some scoringKeys) (.transportFail msgT)
      = .error (.transportError msgT) ∧
    PyError.valueError (parseErrMsg rawP)
      ≠ PyError.valueError (schemaErrMsg (missingOf scoringKeys kvs) scoringKeys rawS) ∧
    PyError.transportError msgT ≠ PyError.valueError (parseErrMsg rawP) ∧
    PyError.transportError msgT
      ≠ PyError.valueError (schemaErrMsg (missingOf scoringKeys kvs) scoringKeys rawS) := by
  have h2 : (missingOf scoringKeys kvs).isEmpty = false := by
    cases hM : missingOf scoringKeys kvs with
    | nil => exact absurd hM hmiss
    | cons a l => rfl
  have h1 : scoringKeys.isEmpty = false := rfl
  refine ⟨rfl, ?_, rfl, ?_, ?_, ?_⟩
  · simp [callLLM, h1, h2]
  · intro h
    have hm : parseErrMsg rawP
        = schemaErrMsg (missingOf scoringKeys kvs) scoringKeys rawS := by
      injection h
    exact scat_ne _ _ _ _ (by decide) (by decide) (by decide) hm
  · exact fun h => PyError.noConfusion h
  · exact fun h => PyError.noConfusion h

theorem llm_failure_kinds_distinct_witness :
    missingOf scoringKeys [] ≠ [] ∧
    PyError.valueError (parseErrMsg "oops not json")
      ≠ PyError.valueError (schemaErrMsg (missingOf scoringKeys []) scoringKeys "{}") :=
  ⟨by decide, (llm_failure_kinds_distinct "oops not json" "{}" "timeout" []
      (by decide)).2.2.2.1⟩

/-- C6: for every well-typed job and profile, the heuristic result's
match score is an integer in [0,100] and its ranking level is "high"
exactly when the score is ≥ 70, "medium" when 50 ≤ score < 70, "low"
otherwise. -/
theorem heuristic_bounds_and_tier (job : Job) (user_profile : UserProfile) :
    ∃ n, dictGet (scoreJobHeuristic job user_profile) "match_score"
        = some (Json.num n) ∧
      0 ≤ n ∧ n ≤ 100 ∧
      dictGet (scoreJobHeuristic job user_profile) "ranking_level"
        = some (Json.str (if n ≥ 70 then "high" else if n ≥ 50 then "medium" else "low")) := by
  obtain ⟨hb1, hb2⟩ := heurTotal_bounds job user_profile
  exact ⟨heurTotal job user_profile, heur_get_match_score _ _, hb1, hb2,
    heur_get_ranking _ _⟩

/-- C8: the heuristic scorer's seniority component equals the sum, over
the fixed vocabulary senior/lead/staff/principal/junior/entry, of 10
points per keyword occurring (case-insensitively) in both the job title
and the profile's experience text, 5 points per keyword occurring in
exactly one of the two, capped at 20. -/
theorem heuristic_seniority_component (job : Job) (user_profile : UserProfile) :
    heurExpScore job user_profile =
      min ((yearsKeywords.map (fun kw =>
        if strContains (lowerStr job.job_title) kw &&
            strContains (lowerStr user_profile.experience) kw then (10 : Int)
        else if strContains (lowerStr job.job_title) kw ||
            strContains (lowerStr user_profile.experience) kw then 5
        else 0)).sum) 20 := by
  unfold heurExpScore
  rw [expScoreLoop_eq_sum]
  simp only [lowerStr_idem, zero_add]
  rfl

theorem batch_entry_inv (jobs : List Job) (user_profile : UserProfile)
    (quick_mode : Bool) (responses : Nat → ProviderOutcome) (i : Nat) (d : Dict)
    (h : (matchJobsBatchService jobs user_profile quick_mode responses)[i]? = some d) :
    ∃ job, jobs[i]? = some job ∧ i < jobs.length ∧
      d = (if quick_mode then scoreJobHeuristic job user_profile
           else llmEntry job (responses i)) := by
  have hlt : i < jobs.length := by
    by_contra hge
    rw [List.getElem?_eq_none (by rw [batch_length]; omega)] at h
    exact Option.noConfusion h
  cases hjq : jobs[i]? with
  | none =>
    rw [List.getElem?_eq_none_iff] at hjq
    omega
  | some job =>
    refine ⟨job, rfl, hlt, ?_⟩
    cases quick_mode with
    | true =>
      rw [batch_get_quick jobs user_profile responses i job hjq] at h
      simpa using h.symm
    | false =>
      rw [batch_get_llm jobs user_profile responses i job hjq] at h
      simpa using h.symm

theorem llmEntry_match_score (job : Job) (resp : ProviderOutcome) :
    ∃ n, dictGet (llmEntry job resp) "match_score" = some (Json.num n) ∧
      0 ≤ n ∧ n ≤ 100 := by
  unfold llmEntry
  split
  next d hsc => exact scoreJobLLM_ok_match_score _ _ _ hsc
  next e hsc => exact ⟨0, placeholder_get_match_score _ _, by omega⟩

/-- C5: every result returned by `score_batch`, in either mode, carries an
integer match score in [0,100]; moreover in LLM mode a successful
result's score is exactly the provider-returned `match_percentage`
clamped into [0,100]. -/
theorem score_batch_score_in_range (jobs : List Job) (user_profile : UserProfile)
    (quick_mode : Bool) (responses : Nat → ProviderOutcome) :
    (∀ (i : Nat) (d : Dict),
      (matchJobsBatchService jobs user_profile quick_mode responses)[i]? = some d →
      ∃ n, dictGet d "match_score" = some (Json.num n) ∧ 0 ≤ n ∧ n ≤ 100) ∧
    (∀ (job : Job) (raw : String) (data : Dict) (d : Dict) (p : Int),
      scoreJobLLM job (.reply raw (some (.obj data))) = .ok d →
      dictGet data "match_percentage" = some (Json.num p) →
      dictGet d "match_score" = some (Json.num (min 100 (max 0 p)))) := by
  constructor
  · intro i d h
    obtain ⟨job, _, _, hd⟩ := batch_entry_inv jobs user_profile quick_mode responses i d h
    cases quick_mode with
    | true =>
      simp only [if_true] at hd
      subst hd
      obtain ⟨hb1, hb2⟩ := heurTotal_bounds job user_profile
      exact ⟨heurTotal job user_profile, heur_get_match_score _ _, hb1, hb2⟩
    | false =>
      simp only [Bool.false_eq_true, if_false] at hd
      subst hd
      exact llmEntry_match_score job (responses i)
  · intro job raw data d p hok hp
    obtain ⟨raw2, data2, hresp, hmp⟩ := scoreJobLLM_ok_mp_provider _ _ _ hok
    have hdd : data2 = data := by
      simp only [ProviderOutcome.reply.injEq, Option.some.injEq, Json.obj.injEq] at hresp
      exact hresp.2.symm
    subst hdd
    exact scoreJobLLM_ok_clamp _ _ _ _ hok (hmp.trans hp)

theorem score_batch_score_in_range_witness :
    ∃ d, (matchJobsBatchService [exJob] exProfile false (fun _ => exGoodReply))[0]?
        = some d ∧
      ∃ n, dictGet d "match_score" = some (Json.num n) ∧ 0 ≤ n ∧ n ≤ 100 :=
  ⟨llmEntry exJob exGoodReply, rfl,
    (score_batch_score_in_range [exJob] exProfile false (fun _ => exGoodReply)).1
      0 (llmEntry exJob exGoodReply) rfl⟩

/-- C7: in every result returned by `score_batch` — heuristic,
LLM-success, or degraded placeholder — whenever the `matched_skills` or
`missing_skills` field is a list, it has at most 5 entries. -/
theorem score_batch_skill_lists_le_five (jobs : List Job)
    (user_profile : UserProfile) (quick_mode : Bool)
    (responses : Nat → ProviderOutcome) (i : Nat) (d : Dict) (xs : List Json)
    (h : (matchJobsBatchService jobs user_profile quick_mode responses)[i]? = some d) :
    (dictGet d "matched_skills" = some (Json.arr xs) → xs.length ≤ 5) ∧
    (dictGet d "missing_skills" = some (Json.arr xs) → xs.length ≤ 5) := by
  obtain ⟨job, _, _, hd⟩ := batch_entry_inv jobs user_profile quick_mode responses i d h
  cases quick_mode with
  | true =>
    simp only [if_true] at hd
    subst hd
    constructor
    · intro hx
      rw [heur_get_matched] at hx
      simp only [Option.some.injEq, Json.arr.injEq] at hx
      subst hx
      simp [List.length_map, List.length_take]
    · intro hx
      rw [heur_get_missing] at hx
      simp only [Option.some.injEq, Json.arr.injEq] at hx
      subst hx
      simp [List.length_map, List.length_take]
  | false =>
    simp only [Bool.false_eq_true, if_false] at hd
    subst hd
    unfold llmEntry
    split
    next d' hsc =>
      exact ⟨fun hx => scoreJobLLM_ok_matched_le5 _ _ _ _ hsc hx,
             fun hx => scoreJobLLM_ok_missing_le5 _ _ _ _ hsc hx⟩
    next e hsc =>
      constructor
      · intro hx
        rw [placeholder_get_matched] at hx
        simp only [Option.some.injEq, Json.arr.injEq] at hx
        subst hx
        simp
      · intro hx
        rw [placeholder_get_missing] at hx
        simp only [Option.some.injEq, Json.arr.injEq] at hx
        subst hx
        simp

theorem score_batch_skill_lists_le_five_witness :
    (matchJobsBatchService [exJob] exProfile false (fun _ => exGoodReply))[0]?
        = some (llmEntry exJob exGoodReply) ∧
    dictGet (llmEntry exJob exGoodReply) "matched_skills"
        = some (Json.arr [Json.str "a", Json.str "b", Json.str "c",
            Json.str "d", Json.str "e"]) ∧
    ([Json.str "a", Json.str "b", Json.str "c", Json.str "d", Json.str "e"] :
        List Json).length ≤ 5 :=
  ⟨rfl, rfl,
    (score_batch_skill_lists_le_five [exJob] exProfile false (fun _ => exGoodReply)
      0 (llmEntry exJob exGoodReply) _ rfl).1 rfl⟩

/-- C9: an LLM-mode result's `job_id` does not depend on the provider's
response content: any two successfully scored results for the same input
job carry the same `job_id`, namely the identifier stamped from the
input job (even when the provider response contains a `job_id` of its
own). -/
theorem llm_job_id_noninterference (job : Job) (r1 r2 : ProviderOutcome)
    (d1 d2 : Dict) (h1 : scoreJobLLM job r1 = .ok d1)
    (h2 : scoreJobLLM job r2 = .ok d2) :
    dictGet d1 "job_id" = dictGet d2 "job_id" ∧
    dictGet d1 "job_id" = some (optStrJson job.job_id) := by
  have a1 := scoreJobLLM_ok_job_id job r1 d1 h1
  have a2 := scoreJobLLM_ok_job_id job r2 d2 h2
  exact ⟨a1.trans a2.symm, a1⟩

theorem llm_job_id_noninterference_witness :
    ∃ d1 d2, scoreJobLLM exJob exGoodReply = Except.ok d1 ∧
      scoreJobLLM exJob exGoodReplyB = Except.ok d2 ∧
      dictGet d1 "job_id" = dictGet d2 "job_id" ∧
      dictGet d1 "job_id" = some (optStrJson exJob.job_id) := by
  refine ⟨_, _, rfl, rfl, ?_, ?_⟩
  · exact (llm_job_id_noninterference exJob exGoodReply exGoodReplyB _ _ rfl rfl).1
  · exact (llm_job_id_noninterference exJob exGoodReply exGoodReplyB _ _ rfl rfl).2

/-- C10: a successful LLM-mode result retains the provider's raw
`match_percentage` unmodified while `match_score` holds the clamped
value, so for an out-of-range `match_percentage` the two fields
disagree. -/
theorem llm_match_percentage_retained (job : Job) (resp : ProviderOutcome)
    (d : Dict) (h : scoreJobLLM job resp = .ok d) :
    (∃ raw data, resp = .reply raw (some (.obj data)) ∧
      dictGet d "match_percentage" = dictGet data "match_percentage") ∧
    (∀ p : Int, dictGet d "match_percentage" = some (Json.num p) →
      dictGet d "match_score" = some (Json.num (min 100 (max 0 p))) ∧
      ((p < 0 ∨ 100 < p) →
        dictGet d "match_percentage" ≠ dictGet d "match_score")) := by
  refine ⟨scoreJobLLM_ok_mp_provider _ _ _ h, ?_⟩
  intro p hp
  have hs := scoreJobLLM_ok_clamp job resp d p h hp
  refine ⟨hs, fun hout he => ?_⟩
  rw [hp, hs] at he
  simp only [Option.some.injEq, Json.num.injEq] at he
  omega

theorem llm_match_percentage_retained_witness :
    ∃ d, scoreJobLLM exJob exGoodReply = Except.ok d ∧
      dictGet d "match_percentage" = some (Json.num 150) ∧
      dictGet d "match_score" = some (Json.num (min 100 (max 0 150))) ∧
      dictGet d "match_percentage" ≠ dictGet d "match_score" := by
  refine ⟨_, rfl, rfl, ?_, ?_⟩
  · exact ((llm_match_percentage_retained exJob exGoodReply _ rfl).2 150 rfl).1
  · exact ((llm_match_percentage_retained exJob exGoodReply _ rfl).2 150 rfl).2
      (Or.inr (by omega))

/-- C2 counterexample: the claim's converse direction is false as stated.
With a provider reply that passes parsing and schema validation but
itself contains an `"error"` key, the batch entry carries a non-null
`error` field while `ranking_level` is `"high"` and `match_score` is 80,
not `"none"` and 0. -/
theorem error_field_passthrough_counterexample :
    (matchJobsBatchService [exJob] exProfile false (fun _ => exErrorKeyReply))[0]?
      = some (llmEntry exJob exErrorKeyReply) ∧
    dictGet (llmEntry exJob exErrorKeyReply) "error" = some (Json.str "sneaky") ∧
    dictGet (llmEntry exJob exErrorKeyReply) "ranking_level" = some (Json.str "high") ∧
    dictGet (llmEntry exJob exErrorKeyReply) "ranking_level" ≠ some (Json.str "none") ∧
    dictGet (llmEntry exJob exErrorKeyReply) "match_score" = some (Json.num 80) ∧
    dictGet (llmEntry exJob exErrorKeyReply) "match_score" ≠ some (Json.num 0) := by
  refine ⟨rfl, rfl, rfl, ?_, rfl, ?_⟩
  · intro h
    have he : dictGet (llmEntry exJob exErrorKeyReply) "ranking_level"
        = some (Json.str "high") := rfl
    rw [he] at h
    simp only [Option.some.injEq, Json.str.injEq] at h
    exact absurd h (by decide)
  · intro h
    have he : dictGet (llmEntry exJob exErrorKeyReply) "match_score"
        = some (Json.num 80) := rfl
    rw [he] at h
    simp only [Option.some.injEq, Json.num.injEq] at h
    omega

/-- C2 amended: in LLM mode a failed task's entry is the degraded
placeholder (score 0, ranking "none", empty skill lists, summary
"Error during AI scoring", the failure's message in `error`), every
entry is determined by its own job and its own provider response alone,
and — provided no successful provider reply itself contains an `"error"`
key — every result carrying a non-null `error` field has
`ranking_level = "none"` and `match_score = 0`. -/
theorem llm_mode_failure_isolation (jobs : List Job) (user_profile : UserProfile)
    (responses : Nat → ProviderOutcome) (i : Nat) (job : Job) (e : PyError)
    (hji : jobs[i]? = some job)
    (hfail : scoreJobLLM job (responses i) = .error e) :
    (∃ d, (matchJobsBatchService jobs user_profile false responses)[i]? = some d ∧
      dictGet d "job_id" = some (optStrJson job.job_id) ∧
      dictGet d "match_score" = some (Json.num 0) ∧
      dictGet d "ranking_level" = some (Json.str "none") ∧
      dictGet d "matched_skills" = some (Json.arr []) ∧
      dictGet d "missing_skills" = some (Json.arr []) ∧
      dictGet d "summary" = some (Json.str "Error during AI scoring") ∧
      dictGet d "error" = some (Json.str (pyErrMsg e))) ∧
    (∀ (j : Nat) (jb : Job), jobs[j]? = some jb →
      (matchJobsBatchService jobs user_profile false responses)[j]?
        = some (llmEntry jb (responses j))) ∧
    ((∀ (k : Nat) (raw : String) (data : Dict), k < jobs.length →
        responses k = .reply raw (some (.obj data)) →
        dictHasKey data "error" = false) →
      ∀ (j : Nat) (d : Dict) (v : Json),
        (matchJobsBatchService jobs user_profile false responses)[j]? = some d →
        dictGet d "error" = some v → v ≠ Json.null →
        dictGet d "ranking_level" = some (Json.str "none") ∧
        dictGet d "match_score" = some (Json.num 0)) := by
  refine ⟨?_, ?_, ?_⟩
  · refine ⟨llmEntry job (responses i),
      batch_get_llm jobs user_profile responses i job hji, ?_⟩
    unfold llmEntry
    rw [hfail]
    exact ⟨placeholder_get_job_id _ _, placeholder_get_match_score _ _,
      placeholder_get_ranking _ _, placeholder_get_matched _ _,
      placeholder_get_missing _ _, placeholder_get_summary _ _,
      placeholder_get_error _ _⟩
  · intro j jb hjb
    exact batch_get_llm jobs user_profile responses j jb hjb
  · intro hclean j d v hentry herr hv
    obtain ⟨jb, hjb, hjlt, hd⟩ :=
      batch_entry_inv jobs user_profile false responses j d hentry
    simp only [Bool.false_eq_true, if_false] at hd
    subst hd
    unfold llmEntry at herr ⊢
    split at herr
    next d' hsc =>
      have hnone : dictGet d' "error" = none :=
        scoreJobLLM_ok_no_error jb (responses j) d' hsc
          (fun raw data hr => hclean j raw data hjlt hr)
      rw [hnone] at herr
      exact Option.noConfusion herr
    next e' hsc =>
      exact ⟨placeholder_get_ranking _ _, placeholder_get_match_score _ _⟩

theorem llm_mode_failure_isolation_witness :
    [exJob][0]? = some exJob ∧
    scoreJobLLM exJob exBadJsonReply
      = Except.error (PyError.valueError (parseErrMsg "oops not json")) ∧
    ∃ d, (matchJobsBatchService [exJob] exProfile false
        (fun _ => exBadJsonReply))[0]? = some d ∧
      dictGet d "job_id" = some (optStrJson exJob.job_id) ∧
      dictGet d "match_score" = some (Json.num 0) ∧
      dictGet d "ranking_level" = some (Json.str "none") ∧
      dictGet d "matched_skills" = some (Json.arr []) ∧
      dictGet d "missing_skills" = some (Json.arr []) ∧
      dictGet d "summary" = some (Json.str "Error during AI scoring") ∧
      dictGet d "error" = some (Json.str (pyErrMsg
        (PyError.valueError (parseErrMsg "oops not json")))) :=
  ⟨rfl, rfl,
    (llm_mode_failure_isolation [exJob] exProfile (fun _ => exBadJsonReply) 0 exJob
      (PyError.valueError (parseErrMsg "oops not json")) rfl rfl).1⟩

end Copilot
